import Mathlib

/-!
Verification development for the codex MCP server repository
(src/jsonl_parser.py, src/backend.py, src/server.py, src/session_manager.py,
src/errors.py, src/config.py).

The Python code is shallowly embedded: decoded JSON values become the
inductive `JValue`; Python exceptions become the inductive `PyExc`; functions
that can raise return their state together with an `Option PyExc` (mirroring
in-place mutation that survives a raised exception) or an `Except PyExc`
result.  `json.loads` is an external library call: it is represented by a
`DecodeOutcome` supplied alongside each line (for concrete inputs the outcome
used is the known result of `json.loads` on that line).
-/

/-- Python exceptions raised or handled by the repository (errors.py and the
builtin exceptions that can escape the code). -/
inductive PyExc where
  | codexExec (message : String) (exit_code : Option Int) (stderr : Option String)
  | codexTimeout (timeout : Int) (bufferedOutput : Option String)
  | sessionNotFound (thread_id : String)
  | invalidSandbox (mode : String)
  | typeError (message : String)
  | attrError (message : String)
deriving DecidableEq

/-- Decoded JSON values (the results of `json.loads`). -/
inductive JValue where
  | null
  | bool (b : Bool)
  | num (n : Int)
  | str (s : String)
  | arr (elems : List JValue)
  | obj (fields : List (String × JValue))

/-- Python truthiness of a decoded JSON value. -/
def jtruthy : JValue → Bool
  | .null => false
  | .bool b => b
  | .num n => n != 0
  | .str s => !s.isEmpty
  | .arr xs => !xs.isEmpty
  | .obj fs => !fs.isEmpty

/-- Truthiness of a Python variable that may hold `None` (`none`). -/
def optTruthy : Option JValue → Bool
  | none => false
  | some v => jtruthy v

/-- First-binding lookup in a JSON object (Python dict lookup). -/
def jlookup : List (String × JValue) → String → Option JValue
  | [], _ => none
  | (k1, v1) :: rest, k => if k1 = k then some v1 else jlookup rest k

/-- Python `data.get(key)` (default `None`): `AttributeError` when the value
is not a dict. -/
def jget? (v : JValue) (k : String) : Except PyExc (Option JValue) :=
  match v with
  | .obj fs => .ok (jlookup fs k)
  | _ => .error (.attrError "object has no attribute get")

/-- Python `data.get(key, default)`: the stored value (even if `None`/falsy)
when the key is present, otherwise the default. -/
def jgetD (v : JValue) (k : String) (d : JValue) : Except PyExc JValue :=
  match v with
  | .obj fs => .ok ((jlookup fs k).getD d)
  | _ => .error (.attrError "object has no attribute get")

/-- Python `a or b` where `a` may be `None`. -/
def pyOr (a b : Option JValue) : Option JValue :=
  match a with
  | some v => if jtruthy v then some v else b
  | none => b

/-- Python `a or b` over plain values. -/
def pyOrV (a b : JValue) : JValue :=
  if jtruthy a then a else b

/-- Python `a or fallback` where `a` may be `None` and the fallback is a plain
value. -/
def pyOrOpt (a : Option JValue) (fallback : JValue) : JValue :=
  match a with
  | some v => if jtruthy v then v else fallback
  | none => fallback

mutual
/-- Rendering of a decoded value by Python `str` (external builtin, modelled
as a total function; no claim depends on the exact text). -/
def pyRepr : JValue → String
  | .null => "None"
  | .bool true => "True"
  | .bool false => "False"
  | .num n => toString n
  | .str s => "\x27" ++ s ++ "\x27"
  | .arr xs => "[" ++ pyReprElems xs ++ "]"
  | .obj fs => "\x7b" ++ pyReprFields fs ++ "\x7d"

def pyReprElems : List JValue → String
  | [] => ""
  | [x] => pyRepr x
  | x :: rest => pyRepr x ++ ", " ++ pyReprElems rest

def pyReprFields : List (String × JValue) → String
  | [] => ""
  | [(k, v)] => "\x27" ++ k ++ "\x27: " ++ pyRepr v
  | (k, v) :: rest => "\x27" ++ k ++ "\x27: " ++ pyRepr v ++ ", " ++ pyReprFields rest
end

/-- A parsed event (jsonl_parser.py `CodexEvent`).  `event_type` is whatever
value `data.get("type", "unknown")` produced, so it is a `JValue`. -/
structure CodexEvent where
  event_type : JValue
  data : JValue
  raw : String

/-- Aggregated result from parsing codex exec output
(jsonl_parser.py `ParsedResult`). -/
structure ParsedResult where
  thread_id : Option JValue := none
  agent_messages : List JValue := []
  reasoning : List JValue := []
  command_executions : List (JValue × JValue) := []
  tool_calls : List (JValue × JValue × JValue) := []
  errors : List JValue := []
  completed : Bool := false
  raw_events : List CodexEvent := []

/-- The fresh `ParsedResult()` a `JsonlParser` starts from. -/
def initResult : ParsedResult := {}

/-- Python `"\n\n".join(xs)`: `TypeError` on a non-string element. -/
def joinStrs : List JValue → Except PyExc (List String)
  | [] => .ok []
  | .str s :: rest => (joinStrs rest).map (fun l => s :: l)
  | _ :: _ => .error (.typeError "sequence item: expected str instance")

/-- `ParsedResult.get_agent_response`. -/
def get_agent_response (st : ParsedResult) : Except PyExc String :=
  if st.agent_messages.isEmpty then .ok ""
  else (joinStrs st.agent_messages).map (String.intercalate "\n\n")

/-- Python whitespace as stripped by `str.strip()`. -/
def isPySpace (c : Char) : Bool :=
  c = ' ' || c = '\t' || c = '\n' || c = '\r' || c = '\x0b' || c = '\x0c'

/-- Python `line.strip()`. -/
def pyStrip (s : String) : String :=
  ⟨((s.data.dropWhile isPySpace).reverse.dropWhile isPySpace).reverse⟩

/-- Python `s.lower()` (ASCII case folding). -/
def strLower (s : String) : String :=
  ⟨s.data.map Char.toLower⟩

/-- `event_type.replace(".", "_")`. -/
def dotsToUnderscores (s : String) : String :=
  ⟨s.data.map (fun c => if c = '.' then '_' else c)⟩

/-- Python `v == s` for a string literal `s` (equality across types is
`False`, never an error). -/
def jvalEqStr (v : JValue) (s : String) : Bool :=
  match v with
  | .str s2 => s2 = s
  | _ => false

/-- Python iteration over a decoded value (`for part in content`): lists give
their elements, strings their characters, dicts their keys; other values
raise `TypeError`. -/
def jiter : JValue → Except PyExc (List JValue)
  | .arr xs => .ok xs
  | .str s => .ok (s.toList.map (fun c => .str (String.singleton c)))
  | .obj fs => .ok (fs.map (fun kv => .str kv.1))
  | _ => .error (.typeError "object is not iterable")

/-- Whether Python iteration over the value succeeds. -/
def jIterable : JValue → Bool
  | .arr _ => true
  | .str _ => true
  | .obj _ => true
  | _ => false

/-- `JsonlParser._handle_thread_started`. -/
def handle_thread_started (st : ParsedResult) (data : JValue) :
    ParsedResult × Option PyExc :=
  match jget? data "thread_id", jget? data "threadId" with
  | .ok a, .ok b => ({ st with thread_id := pyOr a b }, none)
  | .error e, _ => (st, some e)
  | _, .error e => (st, some e)

/-- The per-part body of `JsonlParser._extract_message_content`'s loop (no
raise is possible inside the loop body). -/
def foldPart (st : ParsedResult) (part : JValue) : ParsedResult :=
  match part with
  | .obj fields =>
    let partType := (jlookup fields "type").getD (.str "")
    if jvalEqStr partType "text" then
      let text := (jlookup fields "text").getD (.str "")
      if jtruthy text then { st with agent_messages := st.agent_messages ++ [text] }
      else st
    else if jvalEqStr partType "reasoning" then
      let r := pyOrV ((jlookup fields "text").getD (.str ""))
                     ((jlookup fields "content").getD (.str ""))
      if jtruthy r then { st with reasoning := st.reasoning ++ [r] }
      else st
    else st
  | .str s => { st with agent_messages := st.agent_messages ++ [.str s] }
  | _ => st

/-- `JsonlParser._extract_message_content`. -/
def extract_message_content (st : ParsedResult) (item : JValue) :
    ParsedResult × Option PyExc :=
  match jgetD item "role" (.str ""), jgetD item "content" (.arr []) with
  | .ok role, .ok content =>
    if jvalEqStr role "assistant" then
      match jiter content with
      | .error e => (st, some e)
      | .ok parts => (parts.foldl foldPart st, none)
    else (st, none)
  | .error e, _ => (st, some e)
  | _, .error e => (st, some e)

/-- `JsonlParser._extract_function_call`. -/
def extract_function_call (st : ParsedResult) (item : JValue) :
    ParsedResult × Option PyExc :=
  match jgetD item "name" (.str ""), jgetD item "arguments" (.obj []),
        jgetD item "call_id" (.str "") with
  | .ok n, .ok a, .ok c =>
    ({ st with tool_calls := st.tool_calls ++ [(n, a, c)] }, none)
  | .error e, _, _ => (st, some e)
  | _, .error e, _ => (st, some e)
  | _, _, .error e => (st, some e)

/-- `JsonlParser._extract_function_output`. -/
def extract_function_output (st : ParsedResult) (item : JValue) :
    ParsedResult × Option PyExc :=
  match jgetD item "output" (.str ""), jgetD item "call_id" (.str "") with
  | .ok output, .ok call_id =>
    if jtruthy call_id && jtruthy output then
      ({ st with command_executions := st.command_executions ++ [(call_id, output)] },
       none)
    else (st, none)
  | .error e, _ => (st, some e)
  | _, .error e => (st, some e)

/-- `JsonlParser._handle_item_completed`. -/
def handle_item_completed (st : ParsedResult) (data : JValue) :
    ParsedResult × Option PyExc :=
  match jgetD data "item" (.obj []) with
  | .error e => (st, some e)
  | .ok item =>
    match jgetD item "type" (.str "") with
    | .error e => (st, some e)
    | .ok itemType =>
      if jvalEqStr itemType "message" then
        extract_message_content st item
      else if jvalEqStr itemType "agent_message" then
        match jgetD item "text" (.str "") with
        | .error e => (st, some e)
        | .ok text =>
          (if jtruthy text then
             { st with agent_messages := st.agent_messages ++ [text] }
           else st, none)
      else if jvalEqStr itemType "reasoning" then
        match jgetD item "text" (.str "") with
        | .error e => (st, some e)
        | .ok text =>
          (if jtruthy text then { st with reasoning := st.reasoning ++ [text] }
           else st, none)
      else if jvalEqStr itemType "function_call" then
        extract_function_call st item
      else if jvalEqStr itemType "function_call_output" then
        extract_function_output st item
      else (st, none)

/-- `JsonlParser._handle_turn_completed`. -/
def handle_turn_completed (st : ParsedResult) (_data : JValue) :
    ParsedResult × Option PyExc :=
  ({ st with completed := true }, none)

/-- `JsonlParser._handle_response_completed`. -/
def handle_response_completed (st : ParsedResult) (_data : JValue) :
    ParsedResult × Option PyExc :=
  ({ st with completed := true }, none)

/-- `JsonlParser._handle_error`. -/
def handle_error (st : ParsedResult) (data : JValue) :
    ParsedResult × Option PyExc :=
  match jget? data "message", jget? data "error" with
  | .ok m, .ok e2 =>
    ({ st with errors := st.errors ++ [pyOrOpt m (pyOrOpt e2 (.str (pyRepr data)))] },
     none)
  | .error e, _ => (st, some e)
  | _, .error e => (st, some e)

/-- Handler dispatch on `f"_handle_{event_type.replace(chr(46), chr(95))}"`
for a string event type already normalized by `dotsToUnderscores`. -/
def dispatchHandler (st : ParsedResult) (t : String) (data : JValue) :
    ParsedResult × Option PyExc :=
  if t = "thread_started" then handle_thread_started st data
  else if t = "item_completed" then handle_item_completed st data
  else if t = "turn_completed" then handle_turn_completed st data
  else if t = "response_completed" then handle_response_completed st data
  else if t = "error" then handle_error st data
  else (st, none)

/-- `JsonlParser._process_event`: the event is appended to `raw_events`
before the handler lookup; a non-string `event_type` then raises
`AttributeError` at `.replace`. -/
def process_event (st : ParsedResult) (event : CodexEvent) :
    ParsedResult × Option PyExc :=
  let st1 := { st with raw_events := st.raw_events ++ [event] }
  match event.event_type with
  | .str t => dispatchHandler st1 (dotsToUnderscores t) event.data
  | _ => (st1, some (.attrError "object has no attribute replace"))

/-- Outcome of the external `json.loads` on one (stripped, non-empty) line. -/
inductive DecodeOutcome where
  | fail
  | ok (v : JValue)

/-- `JsonlParser.parse_line`.  Returns the mutated result state, the returned
event (if any) and the exception escaping the call (if any). -/
def parse_line (st : ParsedResult) (line : String) (d : DecodeOutcome) :
    ParsedResult × Option CodexEvent × Option PyExc :=
  if (pyStrip line).isEmpty then (st, none, none)
  else
    match d with
    | .fail => (st, none, none)
    | .ok data =>
      match jgetD data "type" (.str "unknown") with
      | .error e => (st, none, some e)
      | .ok event_type =>
        match process_event st ⟨event_type, data, pyStrip line⟩ with
        | (st1, none) => (st1, some ⟨event_type, data, pyStrip line⟩, none)
        | (st1, some e) => (st1, none, some e)

/-- Folding a list of already-decoded events through `_process_event`,
stopping at the first escaping exception (as Python execution would). -/
def foldEvents : ParsedResult → List CodexEvent → ParsedResult × Option PyExc
  | st, [] => (st, none)
  | st, e :: rest =>
    match process_event st e with
    | (st1, none) => foldEvents st1 rest
    | (st1, some err) => (st1, some err)

/-- backend.py `RETRYABLE_ERROR_PATTERNS`. -/
def RETRYABLE_ERROR_PATTERNS : List String :=
  ["Reconnecting", "stream disconnected", "stream closed",
   "connection reset", "connection refused", "network error"]

/-- Substring test on character lists (`pattern in text` in Python). -/
def listContainsSub : List Char → List Char → Bool
  | [], p => p.isEmpty
  | l@(_ :: t), p => p.isPrefixOf l || listContainsSub t p

/-- Python `needle in haystack` on strings. -/
def strContainsSub (haystack needle : String) : Bool :=
  listContainsSub haystack.toList needle.toList

/-- Whether one error message matches any retryable pattern
(`pattern.lower() in error.lower()`). -/
def matchesRetryablePattern (error : String) : Bool :=
  RETRYABLE_ERROR_PATTERNS.any (fun p => strContainsSub (strLower error) (strLower p))

/-- backend.py `_is_retryable_error`, over the runtime values held in
`result.errors`: `error.lower()` raises `AttributeError` on the first
non-string entry reached. -/
def is_retryable_error : List JValue → Except PyExc Bool
  | [] => .ok false
  | .str s :: rest =>
    if matchesRetryablePattern s then .ok true else is_retryable_error rest
  | _ :: _ => .error (.attrError "object has no attribute lower")

/-- `config.SANDBOX_MODES`. -/
def SANDBOX_MODES : List String :=
  ["read-only", "workspace-write", "danger-full-access"]

/-- `config.MAX_RETRIES`. -/
def MAX_RETRIES : Nat := 3

/-- The observable behaviour of one spawned child process (and of the OS
calls around it) during a single `_execute_once` attempt: the exception
text if spawning or the stdin write raises, the stdout lines delivered
before end-of-stream (each with its `json.loads` outcome), the stderr text
the stderr loop collected, and `proc.returncode` as observed at the exit
code check. -/
structure ChildBehavior where
  spawnExc : Option String := none
  stdinExc : Option String := none
  stdoutLines : List (String × DecodeOutcome) := []
  stderrCollected : String := ""
  returncode : Option Int := none

/-- The result of one `_execute_once` attempt together with whether
`_terminate_process` was invoked after the read loops finished. -/
structure OnceOutcome where
  result : Except PyExc ParsedResult
  terminationAttempted : Bool

/-- `read_stream` (the stdout loop of `_execute_once`): feed each line to
`parse_line`, stop at end-of-stream or as soon as `parser.result.completed`;
an exception escaping `parse_line` propagates out of the loop. -/
def readStream : ParsedResult → List (String × DecodeOutcome) →
    ParsedResult × Option PyExc
  | st, [] => (st, none)
  | st, (line, d) :: rest =>
    match parse_line st line d with
    | (st1, _, some e) => (st1, some e)
    | (st1, _, none) => if st1.completed then (st1, none) else readStream st1 rest

/-- `f"Codex exited with code {proc.returncode}"`: `None` renders as
"None". -/
def exitCodeStr : Option Int → String
  | none => "None"
  | some n => toString n

/-- `str(e)` for the modelled exceptions (the message CPython would carry,
up to wording for the builtin exception classes). -/
def pyExcStr : PyExc → String
  | .codexExec msg _ _ => msg
  | .codexTimeout t _ => "Codex execution timed out after " ++ toString t ++ " seconds"
  | .sessionNotFound tid => "Session not found: " ++ tid
  | .invalidSandbox mode => "Invalid sandbox mode: " ++ mode
  | .typeError msg => msg
  | .attrError msg => msg

/-- `CodexExecRunner._execute_once`.  The spawn, the stdin write and the two
read loops run in order; any non-`CodexExecutionError` exception is wrapped
into `CodexExecutionError(str(e))`; termination of the process tree is
attempted (after both loops stop) exactly when `parser.result.completed`
holds; then the exit code is inspected. -/
def execute_once (b : ChildBehavior) : OnceOutcome :=
  match b.spawnExc with
  | some msg => ⟨.error (.codexExec msg none none), false⟩
  | none =>
    match b.stdinExc with
    | some msg => ⟨.error (.codexExec msg none none), false⟩
    | none =>
      match readStream initResult b.stdoutLines with
      | (_, some e) => ⟨.error (.codexExec (pyExcStr e) none none), false⟩
      | (st, none) =>
        let termAttempt := st.completed
        if b.returncode ≠ some 0 then
          if !st.agent_messages.isEmpty || optTruthy st.thread_id then
            ⟨.ok st, termAttempt⟩
          else
            ⟨.error (.codexExec ("Codex exited with code " ++ exitCodeStr b.returncode)
                      b.returncode (some b.stderrCollected)),
             termAttempt⟩
        else ⟨.ok st, termAttempt⟩

/-- What `CodexExecRunner.execute` does with a request: return a
`ParsedResult` or let an exception propagate. -/
inductive ExecOutcome where
  | returned (r : ParsedResult)
  | raised (e : PyExc)

/-- The transient-classification test of `execute`
(`result.errors and _is_retryable_error(result.errors) and not
result.completed`), with Python short-circuiting: the (possibly raising)
`_is_retryable_error` call is reached only when the error list is
non-empty. -/
def retryCheck (errors : List JValue) (completed : Bool) : Except PyExc Bool :=
  if errors.isEmpty then .ok false
  else
    match is_retryable_error errors with
    | .error e => .error e
    | .ok b => .ok (b && !completed)

/-- The raise at the end of `execute` when no partial result is usable. -/
def exhaustedRaise : Option PyExc → ExecOutcome
  | some e => .raised e
  | none => .raised (.codexExec "All retry attempts failed" none none)

/-- The code after `execute`'s loop: return the remembered partial result
when it carries agent messages or a truthy thread id, otherwise raise. -/
def exhausted (lastError : Option PyExc) : Option ParsedResult → ExecOutcome
  | some r =>
    if !r.agent_messages.isEmpty || optTruthy r.thread_id then .returned r
    else exhaustedRaise lastError
  | none => exhaustedRaise lastError

/-- The retry loop of `CodexExecRunner.execute`: `fuel` counts the attempts
still allowed (`MAX_RETRIES + 1` at entry), `i` is the Python loop variable
`attempt`.  The `except CodexExecutionError` clause retries when the message
contains "retryable" or further attempts remain, and re-raises otherwise; an
exception escaping the classification test itself propagates uncaught. -/
def executeAttempts (bs : Nat → ChildBehavior) :
    Nat → Nat → Option PyExc → Option ParsedResult → ExecOutcome
  | 0, _, lastError, lastResult => exhausted lastError lastResult
  | fuel + 1, i, _lastError, lastResult =>
    match (execute_once (bs i)).result with
    | .ok result =>
      match retryCheck result.errors result.completed with
      | .error e => .raised e
      | .ok true =>
        executeAttempts bs fuel (i + 1)
          (some (.codexExec ("Retryable error: " ++ pyRepr (.arr result.errors))
                  none none))
          (some result)
      | .ok false => .returned result
    | .error e =>
      if strContainsSub (strLower (pyExcStr e)) "retryable" || decide (i < MAX_RETRIES) then
        executeAttempts bs fuel (i + 1) (some e) lastResult
      else .raised e

/-- `CodexExecRunner.execute`: validate the sandbox mode, then run up to
`MAX_RETRIES + 1` attempts.  The child behaviour seen by attempt `i` is
`bs i`. -/
def execute (bs : Nat → ChildBehavior) (sandbox : String) : ExecOutcome :=
  if SANDBOX_MODES.contains sandbox then
    executeAttempts bs (MAX_RETRIES + 1) 0 none none
  else .raised (.invalidSandbox sandbox)

/-- Whether an exception is the timeout failure class
(`errors.CodexTimeoutError`). -/
def isTimeoutExc : PyExc → Bool
  | .codexTimeout _ _ => true
  | _ => false

/-- Whether an invocation outcome is a raised timeout failure. -/
def outcomeIsTimeout : ExecOutcome → Bool
  | .returned _ => false
  | .raised e => isTimeoutExc e

/-- Whether a single attempt ended in a raised timeout failure. -/
def onceIsTimeout (o : OnceOutcome) : Bool :=
  match o.result with
  | .ok _ => false
  | .error e => isTimeoutExc e

/-- The dictionary `run_codex` / `run_codex_reply` return to `call_tool`
(server.py consumes it with `.get`). -/
structure ResultDict where
  success : Bool
  threadId : Option String
  agent_messages : String
  reasoning : List JValue
  completed : Bool
  errors : Option (List String)

/-- The response formatting in `call_tool`'s try-block. -/
def formatResponse (result : ResultDict) : String :=
  let parts : List String :=
    (if !result.agent_messages.isEmpty then [result.agent_messages] else [])
    ++ (match result.errors with
        | some errs =>
          if errs.isEmpty then []
          else ["\n\n**Errors:**\n" ++ String.intercalate "\n" errs]
        | none => [])
    ++ (match result.threadId with
        | some tid =>
          if tid.isEmpty then []
          else ["\n\n---\n*Thread ID: " ++ tid ++ "*"]
        | none => [])
  if parts.isEmpty then "No response from Codex." else String.join parts

/-- `call_tool`'s except-clause cascade (server.py lines 148-175): timeout,
session-not-found, execution error, other `CodexMCPError`s, then the generic
`except Exception` branch. -/
def exceptChain : PyExc → String
  | .codexTimeout t p =>
    "**Timeout Error:** Codex execution timed out after " ++ toString t ++
      " seconds." ++
      (match p with
       | some text => if text.isEmpty then "" else
           "\n\n**Partial Output:**\n" ++ (text.take 1000) ++ "..."
       | none => "")
  | .sessionNotFound tid =>
    "**Session Not Found:** Thread ID " ++ tid ++
      " not found. Please start a new session with the codex tool."
  | .codexExec msg _ stderr =>
    "**Execution Error:** " ++ msg ++
      (match stderr with
       | some s => if s.isEmpty then "" else "\n\n**Stderr:**\n" ++ s
       | none => "")
  | .invalidSandbox mode => "**Error:** Invalid sandbox mode: " ++ mode
  | .typeError msg => "**Unexpected Error:** " ++ msg
  | .attrError msg => "**Unexpected Error:** " ++ msg

/-- Parameter names accepted by `backend.run_codex`. -/
def run_codex_params : List String := ["prompt", "cwd", "sandbox", "model"]

/-- Parameter names accepted by `backend.run_codex_reply`. -/
def run_codex_reply_params : List String := ["thread_id", "prompt"]

/-- Keyword-argument names `call_tool` passes to `run_codex`. -/
def codex_call_kwargs : List String :=
  ["prompt", "cwd", "sandbox", "model", "timeout"]

/-- Keyword-argument names `call_tool` passes to `run_codex_reply`. -/
def codex_reply_call_kwargs : List String := ["thread_id", "prompt", "timeout"]

/-- What running one of the backend coroutines would produce had the call
bound: its result-or-exception and how many child processes it would spawn.
Unreachable whenever argument binding fails. -/
structure BackendOracle where
  codexResult : Except PyExc ResultDict
  codexSpawns : Nat
  replyResult : Except PyExc ResultDict
  replySpawns : Nat

/-- CPython argument binding for a keyword call: a keyword argument whose
name is not among the function's parameters raises `TypeError` before the
function body (and hence before any process is spawned). -/
def invokeBackend (params kwargs : List String) (fname : String)
    (body : Except PyExc ResultDict × Nat) : Except PyExc ResultDict × Nat :=
  match kwargs.filter (fun k => !params.contains k) with
  | [] => body
  | k :: _ =>
    (.error (.typeError (fname ++ "() got an unexpected keyword argument " ++ k)), 0)

/-- The try/except body of `call_tool` applied to a backend invocation
outcome. -/
def respondWith : Except PyExc ResultDict → String
  | .ok r => formatResponse r
  | .error e => exceptChain e

/-- server.py `call_tool`: dispatch on the tool name, invoke the backend
coroutine with the fixed keyword-argument list, format or handle the
exception.  Returns the response text and the number of child processes
spawned. -/
def call_tool (name : String) (oracle : BackendOracle) : String × Nat :=
  if name = "codex" then
    let (res, sp) :=
      invokeBackend run_codex_params codex_call_kwargs "run_codex"
        (oracle.codexResult, oracle.codexSpawns)
    (respondWith res, sp)
  else if name = "codex-reply" then
    let (res, sp) :=
      invokeBackend run_codex_reply_params codex_reply_call_kwargs "run_codex_reply"
        (oracle.replyResult, oracle.replySpawns)
    (respondWith res, sp)
  else ("Unknown tool: " ++ name, 0)

/-- session_manager.py `Session` (timestamps in seconds). -/
structure Session where
  thread_id : String
  created_at : Int
  last_active : Int
  cwd : String := ""
  sandbox : String := "read-only"
  model : Option String := none
  turn_count : Nat := 0
  history : List (String × String × Int) := []

/-- `Session.add_turn`: append to history, increment `turn_count`, bump
`last_active`. -/
def add_turn (s : Session) (role content : String) (now : Int) : Session :=
  { s with history := s.history ++ [(role, content, now)],
           turn_count := s.turn_count + 1,
           last_active := now }

/-- `SessionManager._get_session_file`'s filesystem-safe id transform. -/
def safeId (tid : String) : String :=
  ⟨tid.data.map (fun c => if c = '/' ∨ c = '\\' then '_' else c)⟩

/-- The manager's state: the in-memory `_sessions` dict and the on-disk
records keyed by their file names. -/
structure SessionStore where
  sessions : List (String × Session) := []
  disk : List (String × Session) := []

/-- Python dict insertion: replace the existing binding in place, else append. -/
def dictInsert : List (String × Session) → String → Session →
    List (String × Session)
  | [], k, v => [(k, v)]
  | (k1, v1) :: rest, k, v =>
    if k1 = k then (k, v) :: rest else (k1, v1) :: dictInsert rest k v

/-- `SessionManager._save_session`. -/
def save_session (st : SessionStore) (s : Session) : SessionStore :=
  { st with disk := dictInsert st.disk (safeId s.thread_id) s }

/-- `SessionManager.create_session`: a fresh record with `turn_count = 0`,
stored in memory and on disk. -/
def create_session (st : SessionStore) (tid cwd sandbox : String)
    (model : Option String) (now : Int) : SessionStore × Session :=
  let s : Session :=
    { thread_id := tid, created_at := now, last_active := now,
      cwd := cwd, sandbox := sandbox, model := model }
  let st2 := { st with sessions := dictInsert st.sessions tid s }
  (save_session st2 s, s)

/-- `SessionManager.update_session`: bump `last_active`, store and persist. -/
def update_session (st : SessionStore) (s : Session) (now : Int) :
    SessionStore × Session :=
  let s2 := { s with last_active := now }
  let st2 := { st with sessions := dictInsert st.sessions s2.thread_id s2 }
  (save_session st2 s2, s2)

/-- `(now - session.last_active).total_seconds() / 3600`. -/
def ageHours (now la : Int) : ℚ := ((now - la : Int) : ℚ) / 3600

/-- `SessionManager.cleanup_old_sessions`: remove (from memory and disk)
every session strictly older than `max_age_hours`; return the new state
together with the removed count. -/
def cleanup_old_sessions (st : SessionStore) (now : Int) (maxAgeHours : Int) :
    SessionStore × Nat :=
  let isOld := fun (kv : String × Session) =>
    decide (ageHours now kv.2.last_active > (maxAgeHours : ℚ))
  let toRemove := st.sessions.filter isOld
  let keep := st.sessions.filter (fun kv => !isOld kv)
  ({ sessions := keep,
     disk := st.disk.filter
       (fun kv => !(toRemove.any (fun r => safeId r.1 = kv.1))) },
   toRemove.length)

/-- One interaction with a session record: a `Session.add_turn` call or a
`SessionManager.update_session` call at a given time. -/
inductive SessOp where
  | add (role content : String) (t : Int)
  | upd (t : Int)

/-- Apply a sequence of interactions to a store and the session record under
mutation. -/
def applyOps : SessionStore × Session → List SessOp → SessionStore × Session
  | p, [] => p
  | (st, s), .add r c t :: rest => applyOps (st, add_turn s r c t) rest
  | (st, s), .upd t :: rest => applyOps (update_session st s t) rest

/-- The number of `add_turn` calls in an interaction sequence. -/
def countAdds : List SessOp → Nat
  | [] => 0
  | .add _ _ _ :: rest => countAdds rest + 1
  | .upd _ :: rest => countAdds rest

/-- The normalized handler name a string-typed event dispatches to. -/
def evTypeNorm (e : CodexEvent) : Option String :=
  match e.event_type with
  | .str s => some (dotsToUnderscores s)
  | _ => none

/-- Whether an event dispatches to one of the two completion handlers. -/
def isCompletionTyped (e : CodexEvent) : Bool :=
  match e.event_type with
  | .str s =>
    dotsToUnderscores s = "turn_completed" || dotsToUnderscores s = "response_completed"
  | _ => false

/-- The value `_handle_thread_started` would store, when its `data` is a
dict (otherwise the handler raises). -/
def threadIdOf (data : JValue) : Option (Option JValue) :=
  match data with
  | .obj fs => some (pyOr (jlookup fs "thread_id") (jlookup fs "threadId"))
  | _ => none

/-- The nested shape `_handle_item_completed` needs in order not to raise:
the `item` payload is a dict, and for an assistant message its `content` is
something Python can iterate. -/
def itemShapeOk : JValue → Bool
  | .obj itemFields =>
    if jvalEqStr ((jlookup itemFields "type").getD (.str "")) "message" then
      if jvalEqStr ((jlookup itemFields "role").getD (.str "")) "assistant" then
        jIterable ((jlookup itemFields "content").getD (.arr []))
      else true
    else true
  | _ => false

/-- A decoded line shape on which `parse_line` completes without raising: a
dict whose `type` discriminator is a string and, for `item.completed`
events, whose `item` payload satisfies `itemShapeOk`. -/
def wellShapedEventData : JValue → Bool
  | .obj fields =>
    match (jlookup fields "type").getD (.str "unknown") with
    | .str t =>
      if dotsToUnderscores t = "item_completed" then
        itemShapeOk ((jlookup fields "item").getD (.obj []))
      else true
    | _ => false
  | _ => false

/-- An `item.completed` event carrying the agent message "hello"
(decoded from one stdout line). -/
def evHello : CodexEvent :=
  ⟨.str "item.completed",
   .obj [("type", .str "item.completed"),
         ("item", .obj [("type", .str "agent_message"), ("text", .str "hello")])],
   "line-hello"⟩

/-- An `item.completed` event carrying the agent message "world". -/
def evWorld : CodexEvent :=
  ⟨.str "item.completed",
   .obj [("type", .str "item.completed"),
         ("item", .obj [("type", .str "agent_message"), ("text", .str "world")])],
   "line-world"⟩

/-- An event whose type string is the underscore spelling "turn_completed":
it is neither `turn.completed` nor `response.completed`, yet it dispatches
to `_handle_turn_completed` because the dispatch normalizes dots to
underscores. -/
def evTurnUnderscore : CodexEvent :=
  ⟨.str "turn_completed", .obj [("type", .str "turn_completed")], "line-tc"⟩

/-- A `thread.started` event carrying the thread id "a". -/
def evTsA : CodexEvent :=
  ⟨.str "thread.started",
   .obj [("type", .str "thread.started"), ("thread_id", .str "a")], "line-ts-a"⟩

/-- A `thread.started` event carrying no id under either alias field. -/
def evTsEmpty : CodexEvent :=
  ⟨.str "thread.started", .obj [("type", .str "thread.started")], "line-ts-e"⟩

/-- A `thread.started` event carrying the thread id "w" under the
`threadId` alias. -/
def evTsW : CodexEvent :=
  ⟨.str "thread.started",
   .obj [("type", .str "thread.started"), ("threadId", .str "w")], "line-ts-w"⟩

/-- A stdout line decoding to an `error` event with a disconnection
message. -/
def lineErr : String × DecodeOutcome :=
  ("line-e",
   .ok (.obj [("type", .str "error"), ("message", .str "stream disconnected")]))

/-- A stdout line decoding to a `thread.started` event with id "t". -/
def lineTs : String × DecodeOutcome :=
  ("line-t",
   .ok (.obj [("type", .str "thread.started"), ("thread_id", .str "t")]))

/-- A child that reports a disconnection, announces thread "t", never
completes, and exits 0: `execute` classifies the attempt transient. -/
def transientB : ChildBehavior :=
  { stdoutLines := [lineErr, lineTs], returncode := some 0 }

/-- A child that emits nothing and exits 1: the attempt raises
`CodexExecutionError`. -/
def failB : ChildBehavior := { returncode := some 1 }

/-- A child that announces thread "t", exits 1, but whose aggregate carries
a thread id: the per-attempt exit-code path returns it anyway. -/
def failPartialB : ChildBehavior := { stdoutLines := [lineTs], returncode := some 1 }

/-- Attempt behaviours for the C3 counterexample: three transient attempts,
then a failing final attempt. -/
def c3bs : Nat → ChildBehavior := fun i => if i ≤ 2 then transientB else failB

/-- The partial result each transient attempt produces (thread id "t", one
disconnection error, not completed). -/
def c3remembered : ParsedResult := (readStream initResult transientB.stdoutLines).1

/-- Attempt behaviours in which every attempt is the transient child. -/
def c3AllTransient : Nat → ChildBehavior := fun _ => transientB

/-- A child that closes its streams without emitting anything and is still
running (`proc.returncode` is `None`) when the exit code is inspected. -/
def c6beh : ChildBehavior := { returncode := none }

/-- A child used as a C6 witness: silent, but already exited with code 0. -/
def c6exited : ChildBehavior := { returncode := some 0 }

/-- A stdout line decoding to an `error` event matching the network-error
pattern. -/
def lineNetErr : String × DecodeOutcome :=
  ("line-n", .ok (.obj [("type", .str "error"), ("message", .str "network error")]))

/-- A stdout line decoding to a `turn.completed` event. -/
def lineDone : String × DecodeOutcome :=
  ("line-d", .ok (.obj [("type", .str "turn.completed")]))

/-- A child that reports a matching network error and then completes the
turn, exiting 0. -/
def c7b : ChildBehavior :=
  { stdoutLines := [lineNetErr, lineDone], returncode := some 0 }

/-- Attempt behaviours in which every attempt completes despite a matching
error message. -/
def c7bs : Nat → ChildBehavior := fun _ => c7b

/-- The completed-with-matching-error aggregate of `c7b`. -/
def c7res : ParsedResult := (readStream initResult c7b.stdoutLines).1

/-- A store holding one session record whose `last_active` equals the
cleanup instant. -/
def c10store : SessionStore := (create_session {} "abc" "" "read-only" none 100).1

/-- A store holding one session record last active strictly before the
cleanup instant. -/
def c10oldStore : SessionStore := (create_session {} "w" "" "read-only" none 50).1

theorem foldPart_preserves (st : ParsedResult) (part : JValue) :
    (foldPart st part).completed = st.completed ∧
      (foldPart st part).thread_id = st.thread_id := by
  cases part <;> simp only [foldPart] <;> try split_ifs
  all_goals simp

theorem foldl_foldPart_preserves (parts : List JValue) : ∀ st : ParsedResult,
    (parts.foldl foldPart st).completed = st.completed ∧
      (parts.foldl foldPart st).thread_id = st.thread_id := by
  induction parts with
  | nil => intro st; exact ⟨rfl, rfl⟩
  | cons p rest ih =>
    intro st
    have h1 := foldPart_preserves st p
    have h2 := ih (foldPart st p)
    simp only [List.foldl_cons]
    exact ⟨h2.1.trans h1.1, h2.2.trans h1.2⟩

theorem extract_message_content_preserves (st : ParsedResult) (item : JValue) :
    ((extract_message_content st item).1.completed = st.completed ∧
      (extract_message_content st item).1.thread_id = st.thread_id) := by
  cases item <;> simp only [extract_message_content, jgetD] <;> try simp
  case obj fs =>
    split_ifs
    · rcases hj : jiter ((jlookup fs "content").getD (.arr [])) with e | parts
      · simp [hj]
      · simp only [hj]; exact foldl_foldPart_preserves parts st
    · exact ⟨rfl, rfl⟩

theorem extract_function_call_preserves (st : ParsedResult) (item : JValue) :
    ((extract_function_call st item).1.completed = st.completed ∧
      (extract_function_call st item).1.thread_id = st.thread_id) := by
  cases item <;> simp [extract_function_call, jgetD]

theorem extract_function_output_preserves (st : ParsedResult) (item : JValue) :
    ((extract_function_output st item).1.completed = st.completed ∧
      (extract_function_output st item).1.thread_id = st.thread_id) := by
  cases item <;> simp only [extract_function_output, jgetD] <;> try split_ifs
  all_goals simp

theorem handle_item_completed_preserves (st : ParsedResult) (data : JValue) :
    ((handle_item_completed st data).1.completed = st.completed ∧
      (handle_item_completed st data).1.thread_id = st.thread_id) := by
  cases data <;> simp only [handle_item_completed, jgetD] <;> try simp
  case obj fs =>
    generalize (jlookup fs "item").getD (.obj []) = item
    cases item <;> simp only <;> try simp
    case obj ifs =>
      split_ifs <;>
        simp [extract_message_content_preserves, extract_function_call_preserves,
              extract_function_output_preserves]

theorem handle_thread_started_completed (st : ParsedResult) (data : JValue) :
    (handle_thread_started st data).1.completed = st.completed := by
  cases data <;> simp [handle_thread_started, jget?]

theorem handle_error_preserves (st : ParsedResult) (data : JValue) :
    ((handle_error st data).1.completed = st.completed ∧
      (handle_error st data).1.thread_id = st.thread_id) := by
  cases data <;> simp [handle_error, jget?]

theorem dispatchHandler_completed_of_ne (st : ParsedResult) (t : String)
    (data : JValue) (h1 : t ≠ "turn_completed") (h2 : t ≠ "response_completed") :
    (dispatchHandler st t data).1.completed = st.completed := by
  unfold dispatchHandler
  split_ifs <;> first
    | exact handle_thread_started_completed st data
    | exact (handle_item_completed_preserves st data).1
    | exact (handle_error_preserves st data).1
    | rfl
    | simp_all

theorem dispatchHandler_completed_mono (st : ParsedResult) (t : String)
    (data : JValue) (h : st.completed = true) :
    (dispatchHandler st t data).1.completed = true := by
  unfold dispatchHandler
  split_ifs <;> first
    | exact (handle_thread_started_completed st data).trans h
    | exact (handle_item_completed_preserves st data).1.trans h
    | exact (handle_error_preserves st data).1.trans h
    | rfl
    | exact h

theorem dispatchHandler_thread_id_of_ne (st : ParsedResult) (t : String)
    (data : JValue) (h : t ≠ "thread_started") :
    (dispatchHandler st t data).1.thread_id = st.thread_id := by
  unfold dispatchHandler
  split_ifs <;> first
    | exact (handle_item_completed_preserves st data).2
    | exact (handle_error_preserves st data).2
    | rfl
    | simp_all

theorem process_event_completed_mono (st : ParsedResult) (e : CodexEvent)
    (h : st.completed = true) : (process_event st e).1.completed = true := by
  unfold process_event
  cases e.event_type <;> simp only
  case str s => exact dispatchHandler_completed_mono _ _ _ h
  all_goals exact h

theorem process_event_completed_of_ne (st : ParsedResult) (e : CodexEvent)
    (h : isCompletionTyped e = false) :
    (process_event st e).1.completed = st.completed := by
  unfold process_event
  unfold isCompletionTyped at h
  cases he : e.event_type <;> rw [he] at h <;> simp only
  case str s =>
    simp only [Bool.or_eq_false_iff, decide_eq_false_iff_not] at h
    exact dispatchHandler_completed_of_ne _ _ _ h.1 h.2
  all_goals rfl

theorem process_event_thread_id_of_ne (st : ParsedResult) (e : CodexEvent)
    (h : evTypeNorm e ≠ some "thread_started") :
    (process_event st e).1.thread_id = st.thread_id := by
  unfold process_event
  unfold evTypeNorm at h
  cases he : e.event_type <;> rw [he] at h <;> simp only
  case str s =>
    simp only [ne_eq, Option.some.injEq] at h
    exact dispatchHandler_thread_id_of_ne _ _ _ h
  all_goals rfl

theorem foldEvents_completed_mono (evs : List CodexEvent) :
    ∀ st : ParsedResult, st.completed = true →
      (foldEvents st evs).1.completed = true := by
  induction evs with
  | nil => intro st h; exact h
  | cons e rest ih =>
    intro st h
    simp only [foldEvents]
    rcases hp : process_event st e with ⟨st1, err⟩
    have h1 : st1.completed = true := by
      have := process_event_completed_mono st e h
      rw [hp] at this; exact this
    cases err
    · exact ih st1 h1
    · exact h1

theorem foldEvents_completed_false (evs : List CodexEvent) :
    ∀ st : ParsedResult, st.completed = false →
      (∀ e ∈ evs, isCompletionTyped e = false) →
      (foldEvents st evs).1.completed = false := by
  induction evs with
  | nil => intro st h _; exact h
  | cons e rest ih =>
    intro st h hall
    simp only [foldEvents]
    rcases hp : process_event st e with ⟨st1, err⟩
    have h1 : st1.completed = false := by
      have := process_event_completed_of_ne st e (hall e (by simp))
      rw [hp] at this; exact this.trans h
    cases err
    · exact ih st1 h1 (fun x hx => hall x (by simp [hx]))
    · exact h1

theorem foldEvents_thread_id_of_ne (evs : List CodexEvent) :
    ∀ st : ParsedResult,
      (∀ e ∈ evs, evTypeNorm e ≠ some "thread_started") →
      (foldEvents st evs).1.thread_id = st.thread_id := by
  induction evs with
  | nil => intro st _; rfl
  | cons e rest ih =>
    intro st hall
    simp only [foldEvents]
    rcases hp : process_event st e with ⟨st1, err⟩
    have h1 : st1.thread_id = st.thread_id := by
      have := process_event_thread_id_of_ne st e (hall e (by simp))
      rw [hp] at this; exact this
    cases err
    · exact (ih st1 (fun x hx => hall x (by simp [hx]))).trans h1
    · exact h1

theorem foldEvents_append (xs ys : List CodexEvent) : ∀ st : ParsedResult,
    foldEvents st (xs ++ ys) =
      match foldEvents st xs with
      | (st1, none) => foldEvents st1 ys
      | (st1, some e) => (st1, some e) := by
  induction xs with
  | nil => intro st; rfl
  | cons x rest ih =>
    intro st
    simp only [List.cons_append, foldEvents]
    rcases hp : process_event st x with ⟨st1, err⟩
    cases err
    · exact ih st1
    · rfl

theorem execute_once_not_timeout (b : ChildBehavior) :
    onceIsTimeout (execute_once b) = false := by
  unfold execute_once
  rcases b.spawnExc with _ | msg
  · rcases b.stdinExc with _ | msg2
    · rcases readStream initResult b.stdoutLines with ⟨st, _ | e⟩
      · simp only [onceIsTimeout]
        split_ifs <;> rfl
      · rfl
    · rfl
  · rfl

theorem is_retryable_error_err_not_timeout :
    ∀ (errors : List JValue) (e : PyExc),
      is_retryable_error errors = .error e → isTimeoutExc e = false := by
  intro errors
  induction errors with
  | nil => intro e h; cases h
  | cons v rest ih =>
    intro e h
    cases v with
    | str s =>
      simp only [is_retryable_error] at h
      by_cases hm : matchesRetryablePattern s = true
      · rw [if_pos hm] at h; cases h
      · rw [if_neg hm] at h; exact ih e h
    | null => simp only [is_retryable_error, Except.error.injEq] at h; subst h; rfl
    | bool b => simp only [is_retryable_error, Except.error.injEq] at h; subst h; rfl
    | num n => simp only [is_retryable_error, Except.error.injEq] at h; subst h; rfl
    | arr xs => simp only [is_retryable_error, Except.error.injEq] at h; subst h; rfl
    | obj fs => simp only [is_retryable_error, Except.error.injEq] at h; subst h; rfl

theorem retryCheck_err_not_timeout (errors : List JValue) (completed : Bool)
    (e : PyExc) (h : retryCheck errors completed = .error e) :
    isTimeoutExc e = false := by
  unfold retryCheck at h
  by_cases hne : errors.isEmpty = true
  · rw [if_pos hne] at h; cases h
  · rw [if_neg hne] at h
    rcases hi : is_retryable_error errors with e2 | b <;> rw [hi] at h
    · injection h with h2
      subst h2
      exact is_retryable_error_err_not_timeout errors _ hi
    · simp at h

theorem executeAttempts_not_timeout (bs : Nat → ChildBehavior) :
    ∀ (fuel i : Nat) (le : Option PyExc) (lr : Option ParsedResult),
      (∀ e, le = some e → isTimeoutExc e = false) →
      outcomeIsTimeout (executeAttempts bs fuel i le lr) = false := by
  intro fuel
  induction fuel with
  | zero =>
    intro i le lr hle
    rcases lr with _ | r <;> simp only [executeAttempts, exhausted]
    · rcases le with _ | e <;> simp only [exhaustedRaise]
      · rfl
      · exact hle e rfl
    · split_ifs
      · rfl
      · rcases le with _ | e <;> simp only [exhaustedRaise]
        · rfl
        · exact hle e rfl
  | succ fuel ih =>
    intro i le lr hle
    simp only [executeAttempts]
    have hb := execute_once_not_timeout (bs i)
    rcases ho : (execute_once (bs i)).result with e | r
    · have he : isTimeoutExc e = false := by
        unfold onceIsTimeout at hb; rw [ho] at hb; exact hb
      simp only
      split_ifs
      · exact ih (i + 1) (some e) lr (fun e2 h2 => by cases h2; exact he)
      · exact he
    · simp only
      rcases hc : retryCheck r.errors r.completed with e2 | b
      · exact retryCheck_err_not_timeout _ _ _ hc
      · cases b
        · rfl
        · exact ih (i + 1) _ _ (fun e2 h2 => by cases h2; rfl)

/-- C1: the spec demands that a deadline shorter than the child's runtime
makes the supervisor fail with `CodexTimeoutError` carrying the partial
text.  The code has no deadline at all: neither `_execute_once` nor the
retry loop of `execute` can produce a timeout failure for any child
behaviour whatsoever — `CodexTimeoutError` is never constructed in
backend.py, so the documented timeout contract is unimplemented (code
bug). -/
theorem c1_no_timeout_failure_possible (bs : Nat → ChildBehavior)
    (sandbox : String) (b : ChildBehavior) :
    outcomeIsTimeout (execute bs sandbox) = false ∧
      onceIsTimeout (execute_once b) = false := by
  constructor
  · unfold execute
    split_ifs
    · exact executeAttempts_not_timeout bs (MAX_RETRIES + 1) 0 none none
        (fun e h => by cases h)
    · rfl
  · exact execute_once_not_timeout b

/-- C2: for both tools, `call_tool` passes `timeout=` to a backend coroutine
whose signature has no `timeout` parameter.  Binding fails with `TypeError`
before the coroutine body runs, so no child process is spawned and the
handler falls through to the generic `except Exception` branch, returning
the unexpected-error text instead of a codex response — for every backend
behaviour. -/
theorem c2_call_tool_timeout_kwarg_type_error (oracle : BackendOracle) :
    call_tool "codex" oracle =
        ("**Unexpected Error:** run_codex() got an unexpected keyword argument timeout",
         0) ∧
      call_tool "codex-reply" oracle =
        ("**Unexpected Error:** run_codex_reply() got an unexpected keyword argument timeout",
         0) :=
  ⟨rfl, rfl⟩

/-- C3 counterexample: three attempts are classified transient and each
remembered partial result carries thread id "t", but the fourth attempt
raises a (non-"retryable"-worded) `CodexExecutionError` on its last loop
iteration, and `execute` re-raises it immediately — contradicting the claim
that `execute` raises only when no remembered partial result carries a
thread id or agent text. -/
theorem c3_counterexample :
    execute c3bs "read-only" =
        .raised (.codexExec "Codex exited with code 1" (some 1) (some "")) ∧
      (execute_once (c3bs 2)).result = .ok c3remembered ∧
      retryCheck c3remembered.errors c3remembered.completed = .ok true ∧
      optTruthy c3remembered.thread_id = true :=
  ⟨rfl, rfl, rfl, rfl⟩

/-- C3 (amended): the best-effort override holds on the per-attempt
exit-code path (a nonzero exit still returns the attempt's aggregate when
it carries agent messages or a thread id) and on the retry-exhaustion path
(when every attempt is classified transient, the most recently remembered
partial result is returned instead of raising provided it carries a thread
id or agent text); but when the final attempt raises a non-retryable
execution error, `execute` re-raises without consulting the remembered
partial result. -/
theorem c3_amended_best_effort (bs : Nat → ChildBehavior)
    (r : Nat → ParsedResult) (b : ChildBehavior) :
    ((∀ i, i ≤ MAX_RETRIES →
        (execute_once (bs i)).result = .ok (r i) ∧
          retryCheck (r i).errors (r i).completed = .ok true) →
      (!(r MAX_RETRIES).agent_messages.isEmpty ||
        optTruthy (r MAX_RETRIES).thread_id) = true →
      execute bs "read-only" = .returned (r MAX_RETRIES))
    ∧ (b.spawnExc = none → b.stdinExc = none →
       (readStream initResult b.stdoutLines).2 = none →
       b.returncode ≠ some 0 →
       (!(readStream initResult b.stdoutLines).1.agent_messages.isEmpty ||
         optTruthy (readStream initResult b.stdoutLines).1.thread_id) = true →
       (execute_once b).result = .ok (readStream initResult b.stdoutLines).1) := by
  constructor
  · intro hall hlast
    have h0 := hall 0 (by decide)
    have h1 := hall 1 (by decide)
    have h2 := hall 2 (by decide)
    have h3 := hall 3 (by decide)
    unfold execute
    rw [if_pos (by decide : SANDBOX_MODES.contains "read-only" = true)]
    show executeAttempts bs 4 0 none none = _
    simp [executeAttempts, h0.1, h0.2, h1.1, h1.2, h2.1, h2.2, h3.1, h3.2,
          exhausted, MAX_RETRIES] at hlast ⊢
    intro ha hb
    rcases hlast with h | h
    · exact absurd ha h
    · rw [h] at hb; cases hb
  · intro hs hi hr hrc hpart
    unfold execute_once
    simp only [hs, hi]
    rcases hstream : readStream initResult b.stdoutLines with ⟨st, err⟩
    rw [hstream] at hr hpart
    simp only at hr hpart
    subst hr
    simp only
    rw [if_pos hrc, if_pos hpart]

/-- C3 witness for the amended theorem: with every attempt transient and
the remembered partial result carrying thread id "t", `execute` returns
that partial result after exhausting its retries; and an attempt whose
child exits 1 after announcing a thread id still returns its aggregate. -/
theorem c3_amended_witness :
    execute c3AllTransient "read-only" = .returned c3remembered ∧
      (execute_once failPartialB).result =
        .ok (readStream initResult failPartialB.stdoutLines).1 :=
  ⟨(c3_amended_best_effort c3AllTransient (fun _ => c3remembered) failPartialB).1
     (fun _ _ => ⟨rfl, rfl⟩) rfl,
   (c3_amended_best_effort c3AllTransient (fun _ => c3remembered) failPartialB).2
     rfl rfl rfl (by decide) rfl⟩

/-- C4 counterexample: folding the single event whose type string is
"turn_completed" (an ordinary decodable line) sets `completed`, although the
sequence contains neither a `turn.completed` nor a `response.completed`
event — the dot-to-underscore dispatch accepts underscore spellings too, so
the two dotted event types are not the only completion triggers. -/
theorem c4_counterexample :
    (foldEvents initResult [evTurnUnderscore]).1.completed = true ∧
      ∀ e ∈ [evTurnUnderscore],
        e.event_type ≠ JValue.str "turn.completed" ∧
          e.event_type ≠ JValue.str "response.completed" := by
  refine ⟨rfl, ?_⟩
  intro e he
  rw [List.mem_singleton] at he
  subst he
  constructor <;> (intro h; simp [evTurnUnderscore] at h)

/-- C4 (amended): `completed` stays false until an event whose type string,
with dots replaced by underscores, equals "turn_completed" or
"response_completed" is folded (`turn.completed` and `response.completed`
qualify, and so do their underscore spellings); and once `completed` is
true it remains true for every subsequently folded event, whatever its
type. -/
theorem c4_amended_completed_monotone (st : ParsedResult)
    (evs : List CodexEvent) :
    ((∀ e ∈ evs, isCompletionTyped e = false) → st.completed = false →
      (foldEvents st evs).1.completed = false) ∧
    (st.completed = true → (foldEvents st evs).1.completed = true) :=
  ⟨fun hall h => foldEvents_completed_false evs st h hall,
   fun h => foldEvents_completed_mono evs st h⟩

/-- C4 witness: a non-completion event leaves `completed` false, and an
already-completed aggregate stays completed across further events. -/
theorem c4_witness :
    (foldEvents initResult [evHello]).1.completed = false ∧
      (foldEvents { initResult with completed := true } [evHello]).1.completed =
        true :=
  ⟨(c4_amended_completed_monotone initResult [evHello]).1 (by decide) rfl,
   (c4_amended_completed_monotone { initResult with completed := true }
      [evHello]).2 rfl⟩

/-- C6 counterexample: a child that closes both streams without completing
the turn and is still running at the exit-code check (`proc.returncode`
still `None`): the stream-reading phase finishes normally, yet
`_execute_once` makes no termination attempt — contradicting the claim
that termination is attempted on every normal completion of the
stream-reading phase. -/
theorem c6_counterexample :
    (readStream initResult c6beh.stdoutLines).2 = none ∧
      c6beh.returncode = none ∧
      (execute_once c6beh).terminationAttempted = false :=
  ⟨rfl, rfl, rfl⟩

/-- C6 (amended): when spawning and the stdin write succeed and the read
loops finish without an escaping exception, `_execute_once` attempts
process-tree termination if and only if the aggregate's `completed` flag is
true; streams that end without a completion event leave the child
untouched. -/
theorem c6_amended_termination_iff_completed (b : ChildBehavior)
    (h1 : b.spawnExc = none) (h2 : b.stdinExc = none)
    (h3 : (readStream initResult b.stdoutLines).2 = none) :
    (execute_once b).terminationAttempted =
      (readStream initResult b.stdoutLines).1.completed := by
  unfold execute_once
  simp only [h1, h2]
  rcases hs : readStream initResult b.stdoutLines with ⟨st, err⟩
  rw [hs] at h3
  simp only at h3
  subst h3
  simp only
  split_ifs <;> rfl

/-- C6 witness: for a silent child that already exited with code 0, the
termination attempt equals the (false) completion flag. -/
theorem c6_witness :
    (execute_once c6exited).terminationAttempted =
      (readStream initResult c6exited.stdoutLines).1.completed :=
  c6_amended_termination_iff_completed c6exited rfl rfl rfl

/-- C9: folding one `item.completed` event whose item type is
`agent_message` with text "hello" appends exactly "hello" to
`agent_messages`; folding the "hello" and "world" events in order yields
`agent_messages = ["hello", "world"]` and combined response text
"hello\n\nworld" (double line break join). -/
theorem c9_agent_message_folding :
    (foldEvents initResult [evHello]).1.agent_messages = [JValue.str "hello"] ∧
      (foldEvents initResult [evHello, evWorld]).1.agent_messages =
        [JValue.str "hello", JValue.str "world"] ∧
      get_agent_response (foldEvents initResult [evHello, evWorld]).1 =
        .ok "hello\n\nworld" :=
  ⟨rfl, rfl, rfl⟩

theorem listContainsSub_iff (p : List Char) : ∀ l : List Char,
    listContainsSub l p = true ↔ p <:+: l := by
  intro l
  induction l with
  | nil => simp [listContainsSub, List.infix_nil, List.isEmpty_iff]
  | cons c t ih =>
    simp only [listContainsSub, Bool.or_eq_true, List.isPrefixOf_iff_prefix, ih,
      List.infix_cons_iff]

theorem matchesRetryablePattern_iff (msg : String) :
    matchesRetryablePattern msg = true ↔
      ∃ pat ∈ RETRYABLE_ERROR_PATTERNS,
        (strLower pat).data <:+: (strLower msg).data := by
  unfold matchesRetryablePattern strContainsSub
  simp [List.any_eq_true, listContainsSub_iff, String.toList]

theorem is_retryable_error_strings (errs : List String) :
    is_retryable_error (errs.map JValue.str) =
      .ok (errs.any matchesRetryablePattern) := by
  induction errs with
  | nil => rfl
  | cons s rest ih =>
    by_cases hm : matchesRetryablePattern s = true
    · simp [is_retryable_error, hm]
    · simp [is_retryable_error, hm, ih]

/-- C7: an attempt is classified transient (remember the partial result and
retry) exactly when some error message contains, case-insensitively, one of
the fixed disconnection signatures and the aggregate is not completed; and
a completed aggregate is returned by `execute` even when its errors match a
signature. -/
theorem c7_transient_classification (errs : List String) (completed : Bool)
    (bs : Nat → ChildBehavior) (r : ParsedResult) (sandbox : String) :
    (retryCheck (errs.map JValue.str) completed = .ok true ↔
      ((∃ msg ∈ errs, ∃ pat ∈ RETRYABLE_ERROR_PATTERNS,
          (strLower pat).data <:+: (strLower msg).data) ∧ completed = false)) ∧
    (SANDBOX_MODES.contains sandbox = true →
      (execute_once (bs 0)).result = .ok r → r.completed = true →
      is_retryable_error r.errors = .ok true →
      execute bs sandbox = .returned r) := by
  constructor
  · unfold retryCheck
    by_cases he : (errs.map JValue.str).isEmpty = true
    · rw [if_pos he]
      rw [List.isEmpty_iff, List.map_eq_nil_iff] at he
      subst he
      simp
    · rw [if_neg he, is_retryable_error_strings]
      simp [List.any_eq_true, matchesRetryablePattern_iff, and_assoc]
  · intro hsand hok hcomp hretry
    have hne : ¬ r.errors.isEmpty = true := by
      intro hee
      rw [List.isEmpty_iff] at hee
      rw [hee] at hretry
      simp [is_retryable_error] at hretry
    have hrc : retryCheck r.errors r.completed = .ok false := by
      unfold retryCheck
      rw [if_neg hne, hretry, hcomp]
      rfl
    unfold execute
    rw [if_pos hsand]
    show executeAttempts bs 4 0 none none = _
    simp only [executeAttempts, hok, hrc]

/-- C7 witness: the message "network error" with `completed = false` is
classified transient, and a completed aggregate with a matching error is
returned by `execute` on the first attempt. -/
theorem c7_witness :
    retryCheck (["network error"].map JValue.str) false = .ok true ∧
      execute c7bs "read-only" = .returned c7res :=
  ⟨(c7_transient_classification ["network error"] false c7bs c7res
      "read-only").1.mpr
     ⟨⟨"network error", by simp, "network error", by simp [RETRYABLE_ERROR_PATTERNS],
       by decide⟩, rfl⟩,
   (c7_transient_classification ["network error"] false c7bs c7res
      "read-only").2 (by decide) rfl rfl rfl⟩

/-- C8 counterexample: the sequence contains a `thread.started` event
carrying thread id "a", but a later `thread.started` event with no id under
either alias overwrites the already-set id with nothing, so the final
`thread_id` does not equal "a" — contradicting the no-overwrite claim. -/
theorem c8_counterexample :
    (foldEvents initResult [evTsA, evTsEmpty]).1.thread_id = none ∧
      evTsA ∈ [evTsA, evTsEmpty] ∧
      evTsA.event_type = JValue.str "thread.started" ∧
      jget? evTsA.data "thread_id" = .ok (some (JValue.str "a")) :=
  ⟨rfl, by simp, rfl, rfl⟩

/-- C8 (amended): `thread_id` tracks the last `thread.started` event:
every such event overwrites `thread_id` with its own extracted value (the
first truthy of the `thread_id` / `threadId` fields, else whatever the
`threadId` lookup produced).  When the fold raises no exception and no
later `thread.started` event follows, the final `thread_id` equals the
value extracted from that event — in particular, for a sequence whose only
`thread.started` event carries an id under either alias, the final
`thread_id` is that id. -/
theorem evTypeNorm_eq_some (e : CodexEvent) (t : String)
    (h : evTypeNorm e = some t) :
    ∃ s, e.event_type = .str s ∧ dotsToUnderscores s = t := by
  unfold evTypeNorm at h
  rcases he : e.event_type with _ | _ | _ | s | _ | _ <;> rw [he] at h
  case str => exact ⟨s, rfl, by injection h⟩
  all_goals cases h

theorem threadIdOf_eq_some (data : JValue) (v : Option JValue)
    (h : threadIdOf data = some v) :
    ∃ fs, data = .obj fs ∧
      pyOr (jlookup fs "thread_id") (jlookup fs "threadId") = v := by
  unfold threadIdOf at h
  rcases hd : data with _ | _ | _ | _ | _ | fs <;> rw [hd] at h
  case obj => exact ⟨fs, rfl, by injection h⟩
  all_goals cases h

theorem c8_amended_last_writer (pre post : List CodexEvent) (e : CodexEvent)
    (v : Option JValue)
    (hnoerr : (foldEvents initResult (pre ++ e :: post)).2 = none)
    (htype : evTypeNorm e = some "thread_started")
    (hval : threadIdOf e.data = some v)
    (hpost : ∀ x ∈ post, evTypeNorm x ≠ some "thread_started") :
    (foldEvents initResult (pre ++ e :: post)).1.thread_id = v := by
  have happ := foldEvents_append pre (e :: post) initResult
  rcases hpre : foldEvents initResult pre with ⟨st1, err1⟩
  rw [hpre] at happ
  rcases err1 with _ | e1
  · rw [happ] at hnoerr ⊢
    obtain ⟨s, he, hts⟩ := evTypeNorm_eq_some e _ htype
    obtain ⟨fs, hd, hv⟩ := threadIdOf_eq_some e.data _ hval
    simp only [foldEvents]
    have hproc : process_event st1 e =
        ({ { st1 with raw_events := st1.raw_events ++ [e] } with
            thread_id := pyOr (jlookup fs "thread_id") (jlookup fs "threadId") },
         none) := by
      unfold process_event
      rw [he]
      simp only
      rw [hts]
      unfold dispatchHandler
      rw [if_pos rfl]
      unfold handle_thread_started
      rw [hd]
      simp [jget?]
    rw [hproc]
    simp only
    rw [foldEvents_thread_id_of_ne post _ hpost]
    simp [hv]
  · rw [happ] at hnoerr
    simp at hnoerr

/-- C8 witness: a single `thread.started` event carrying id "w" under the
`threadId` alias, followed by an unrelated event, yields `thread_id = "w"`. -/
theorem c8_witness :
    (foldEvents initResult ([] ++ evTsW :: [evHello])).1.thread_id =
      some (JValue.str "w") :=
  c8_amended_last_writer [] [evHello] evTsW (some (JValue.str "w"))
    rfl rfl rfl (by decide)

theorem jiter_ok_of_iterable (v : JValue) (h : jIterable v = true) :
    ∃ parts, jiter v = .ok parts := by
  cases v <;> simp [jIterable] at h <;> exact ⟨_, rfl⟩

theorem extract_message_content_no_raise (st : ParsedResult)
    (ifs : List (String × JValue))
    (h : jvalEqStr ((jlookup ifs "role").getD (.str "")) "assistant" = true →
      jIterable ((jlookup ifs "content").getD (.arr [])) = true) :
    (extract_message_content st (.obj ifs)).2 = none := by
  unfold extract_message_content
  simp only [jgetD]
  split_ifs with hrole
  · obtain ⟨parts, hp⟩ := jiter_ok_of_iterable _ (h hrole)
    rw [hp]
  · rfl

theorem handle_item_completed_no_raise (st : ParsedResult)
    (fields : List (String × JValue))
    (h : itemShapeOk ((jlookup fields "item").getD (.obj [])) = true) :
    (handle_item_completed st (.obj fields)).2 = none := by
  unfold handle_item_completed
  simp only [jgetD]
  rcases hit : (jlookup fields "item").getD (.obj []) with _ | _ | _ | _ | _ | ifs <;>
    rw [hit] at h <;> simp only [itemShapeOk] at h <;> try cases h
  simp only [jgetD]
  by_cases h1 : jvalEqStr ((jlookup ifs "type").getD (.str "")) "message" = true
  · rw [if_pos h1]
    refine extract_message_content_no_raise st ifs (fun hrole => ?_)
    rw [if_pos h1, if_pos hrole] at h
    exact h
  · rw [if_neg h1]
    split_ifs <;>
      first
        | rfl
        | (unfold extract_function_call; simp [jgetD])
        | (unfold extract_function_output; simp only [jgetD]; split_ifs <;> rfl)

theorem process_event_no_raise (st : ParsedResult) (t : String)
    (fields : List (String × JValue)) (raw : String)
    (h : dotsToUnderscores t = "item_completed" →
      itemShapeOk ((jlookup fields "item").getD (.obj [])) = true) :
    (process_event st ⟨.str t, .obj fields, raw⟩).2 = none := by
  unfold process_event
  simp only
  unfold dispatchHandler
  split_ifs with d1 d2 d3 d4 d5
  · simp [handle_thread_started, jget?]
  · exact handle_item_completed_no_raise _ fields (h d2)
  · rfl
  · rfl
  · simp [handle_error, jget?]
  · rfl

/-- C5 counterexample: the line "3" is valid JSON (`json.loads` returns the
integer 3) yet not an object, so `data.get("type", "unknown")` raises
`AttributeError` which escapes `parse_line` — contradicting the claim that
`parse_line` is total over arbitrary input strings and never raises. -/
theorem c5_counterexample :
    (parse_line initResult "3" (.ok (.num 3))).2.2 =
        some (.attrError "object has no attribute get") ∧
      (parse_line initResult "3" (.ok (.num 3))).1 = initResult :=
  ⟨rfl, rfl⟩

/-- C5 (amended): a blank line yields nothing without an error and without
touching the parser state; a line that fails to decode is dropped without
raising and without appending to `raw_events` (the state is unchanged); and
a line decoding to a well-shaped event object (a dict whose type
discriminator is a string, with an `item.completed` payload of the expected
shape) returns an event without raising.  `parse_line` is however not total
over arbitrary input: a valid-JSON line decoding to a non-object value
raises `AttributeError`. -/
theorem c5_amended_parse_line_totality (st : ParsedResult) (line : String)
    (v : JValue) :
    ((pyStrip line).isEmpty = true →
      ∀ d, parse_line st line d = (st, none, none)) ∧
    ((pyStrip line).isEmpty = false →
      parse_line st line .fail = (st, none, none)) ∧
    ((pyStrip line).isEmpty = false → wellShapedEventData v = true →
      (parse_line st line (.ok v)).2.2 = none ∧
        ((parse_line st line (.ok v)).2.1).isSome = true) := by
  refine ⟨?_, ?_, ?_⟩
  · intro hb d
    unfold parse_line
    rw [if_pos hb]
  · intro hb
    unfold parse_line
    rw [if_neg (by rw [hb]; exact Bool.false_ne_true)]
  · intro hb hws
    unfold parse_line
    rw [if_neg (by rw [hb]; exact Bool.false_ne_true)]
    rcases v with _ | _ | _ | _ | _ | fields <;>
      simp only [wellShapedEventData] at hws <;> try cases hws
    simp only [jgetD]
    rcases ht : (jlookup fields "type").getD (.str "unknown")
        with _ | _ | _ | t | _ | _ <;>
      rw [ht] at hws <;> simp only at hws <;> try cases hws
    have hcond : dotsToUnderscores t = "item_completed" →
        itemShapeOk ((jlookup fields "item").getD (.obj [])) = true := by
      intro hd
      rw [if_pos hd] at hws
      exact hws
    have hnr := process_event_no_raise st t fields (pyStrip line) hcond
    rcases hp : process_event st ⟨.str t, .obj fields, pyStrip line⟩ with ⟨st1, err⟩
    rw [hp] at hnr
    simp only at hnr
    subst hnr
    exact ⟨rfl, rfl⟩

/-- C5 witness: a blank line, an undecodable line, and a well-shaped
`thread.started` line each behave as the amended claim states. -/
theorem c5_witness :
    parse_line initResult "   " .fail = (initResult, none, none) ∧
      parse_line initResult "not json" .fail = (initResult, none, none) ∧
      (parse_line initResult "x" (.ok (.obj [("type", .str "thread.started")]))).2.2 =
        none :=
  ⟨(c5_amended_parse_line_totality initResult "   "
      (.obj [("type", .str "thread.started")])).1 (by decide) .fail,
   (c5_amended_parse_line_totality initResult "not json"
      (.obj [("type", .str "thread.started")])).2.1 (by decide),
   ((c5_amended_parse_line_totality initResult "x"
      (.obj [("type", .str "thread.started")])).2.2 (by decide) (by decide)).1⟩

theorem applyOps_turn_count : ∀ (ops : List SessOp) (st : SessionStore)
    (s : Session),
    (applyOps (st, s) ops).2.turn_count = s.turn_count + countAdds ops := by
  intro ops
  induction ops with
  | nil => intro st s; rfl
  | cons op rest ih =>
    intro st s
    cases op with
    | add r c t =>
      have h2 : (add_turn s r c t).turn_count = s.turn_count + 1 := rfl
      simp only [applyOps, countAdds]
      rw [ih st (add_turn s r c t), h2]
      omega
    | upd t =>
      have := ih (update_session st s t).1 (update_session st s t).2
      simp only [applyOps] at this ⊢
      rw [this]
      simp [update_session, countAdds]

theorem ageHours_pos (now la : Int) (h : la < now) :
    ageHours now la > ((0 : Int) : ℚ) := by
  unfold ageHours
  rw [Int.cast_zero]
  apply div_pos
  · exact_mod_cast sub_pos.mpr h
  · norm_num

/-- C10 counterexample: a record stamped at the very instant of the sweep
(`last_active = now = 100`) survives `cleanup_old_sessions` with
`max_age_hours = 0`, because the age comparison is strict (`age >
max_age_hours`) — contradicting the claim that the sweep removes every
stored record. -/
theorem c10_counterexample :
    c10store.sessions.length = 1 ∧
      (cleanup_old_sessions c10store 100 0).2 = 0 ∧
      (cleanup_old_sessions c10store 100 0).1.sessions.length = 1 := by
  refine ⟨rfl, ?_, ?_⟩ <;>
    norm_num [cleanup_old_sessions, c10store, create_session, save_session,
      dictInsert, ageHours]

/-- C10 (amended): `create_session` initializes `turn_count` to 0,
`update_session` never changes it, and after any interleaving of `add_turn`
and `update_session` calls the record's `turn_count` equals exactly the
number of `add_turn` calls; `cleanup_old_sessions` with `max_age_hours = 0`
removes every record whose `last_active` is strictly before the sweep
instant (a record stamped at that very instant is retained). -/
theorem c10_amended_turn_count_and_sweep (st0 : SessionStore)
    (tid cwd sandbox : String) (model : Option String) (now : Int)
    (ops : List SessOp) (store : SessionStore) (nowc : Int) :
    ((create_session st0 tid cwd sandbox model now).2.turn_count = 0 ∧
      (∀ (s : Session) (t : Int),
        (update_session store s t).2.turn_count = s.turn_count) ∧
      (applyOps (create_session st0 tid cwd sandbox model now) ops).2.turn_count =
        countAdds ops) ∧
    ((∀ kv ∈ store.sessions, kv.2.last_active < nowc) →
      (cleanup_old_sessions store nowc 0).1.sessions = [] ∧
      (cleanup_old_sessions store nowc 0).2 = store.sessions.length) := by
  constructor
  · refine ⟨rfl, fun s t => rfl, ?_⟩
    have h := applyOps_turn_count ops
      (create_session st0 tid cwd sandbox model now).1
      (create_session st0 tid cwd sandbox model now).2
    simpa [create_session] using h
  · intro hold
    have hisOld : ∀ kv ∈ store.sessions,
        decide (ageHours nowc kv.2.last_active > ((0 : Int) : ℚ)) = true :=
      fun kv hkv => decide_eq_true (ageHours_pos nowc kv.2.last_active (hold kv hkv))
    constructor
    · simp only [cleanup_old_sessions]
      rw [List.filter_eq_nil_iff]
      intro kv hkv
      have h1 := hisOld kv hkv
      simp only [decide_eq_true_eq, Int.cast_zero] at h1
      simp [h1]
    · simp only [cleanup_old_sessions]
      rw [List.filter_eq_self.mpr hisOld]

/-- C10 witness: two `add_turn` calls interleaved with two updates leave
`turn_count = 2`, and sweeping a store whose one record is strictly old
removes it. -/
theorem c10_witness :
    (applyOps (create_session {} "abc" "" "read-only" none 100)
        [.add "user" "hi" 101, .upd 102, .add "assistant" "ok" 103, .upd 104]
      ).2.turn_count = 2 ∧
      (cleanup_old_sessions c10oldStore 100 0).1.sessions = [] ∧
      (cleanup_old_sessions c10oldStore 100 0).2 =
        c10oldStore.sessions.length := by
  have h := c10_amended_turn_count_and_sweep {} "abc" "" "read-only" none 100
    [.add "user" "hi" 101, .upd 102, .add "assistant" "ok" 103, .upd 104]
    c10oldStore 100
  have hold : ∀ kv ∈ c10oldStore.sessions, kv.2.last_active < 100 := by decide
  exact ⟨h.1.2.2, (h.2 hold).1, (h.2 hold).2⟩
